import Mathlib

/-!
Shallow embedding of `scripts/trainctl_wrapper.py`, the Python client facade
over the external `trainctl` command-line tool.

External collaborators (the spawned child process and the standard-library
JSON parser `json.loads`) are not code of this repository; they are modelled
as explicit inputs of the embedded functions: the child process as a
`SpawnResult` value, and `json.loads` as a `String → Option PyDict`
parameter.  Everything else is translated line by line from
`src/scripts/trainctl_wrapper.py`.
-/

/-- Values that appear in the dictionaries returned by the wrapper
(`Trainctl._run` returns string, int and parsed-JSON entries). -/
inductive PyVal where
  | str (s : String)
  | int (n : Int)
deriving DecidableEq, Repr

/-- A Python dict with string keys, in insertion order. -/
abbrev PyDict := List (String × PyVal)

deriving instance DecidableEq for Except

/-- Captured outcome of `subprocess.run(cmd, capture_output=True, text=True)`
when the child process could be spawned: exit code, stdout and stderr as text. -/
structure SpawnOutcome where
  returncode : Int
  stdout : String
  stderr : String
deriving DecidableEq, Repr

/-- Result of attempting to spawn the child process: either the process ran
to completion, or spawning raised `FileNotFoundError` (binary not found). -/
inductive SpawnResult where
  | ran (r : SpawnOutcome)
  | fileNotFound
deriving DecidableEq, Repr

/-- Characters stripped by the Python `str.strip()` call at line 93: the full
set for which `str.isspace()` is true, namely the ASCII whitespace
`\t \n \x0b \x0c \r` and space, the separators `\x1c`-`\x1f`, the next-line
character `\x85`, the no-break space `\xa0`, the Ogham space `\u1680`, the
typographic spaces `\u2000`-`\u200a`, the line and paragraph separators
`\u2028` and `\u2029`, and the narrow, mathematical and ideographic spaces
`\u202f`, `\u205f` and `\u3000`. -/
def pyWhitespace : List Char :=
  ['\t', '\n', '\x0b', '\x0c', '\r', '\x1c', '\x1d', '\x1e', '\x1f', ' ',
   '\x85', '\xa0', '\u1680', '\u2000', '\u2001', '\u2002', '\u2003', '\u2004',
   '\u2005', '\u2006', '\u2007', '\u2008', '\u2009', '\u200a', '\u2028',
   '\u2029', '\u202f', '\u205f', '\u3000']

/-- Python `c.isspace()` for a single character. -/
def pyIsSpace (c : Char) : Bool :=
  pyWhitespace.contains c

/-- Python `not s.strip()`: the string is empty or consists only of
characters satisfying `str.isspace()`, checked over the character list of the
string. -/
def pyStripEmpty (s : String) : Bool :=
  s.data.all pyIsSpace

/-- Lines 73-75 of `trainctl_wrapper.py`: the full command line.
`cmd = [self.binary] + args` and, when `self.output_format == "json"`,
`cmd.extend(["--output", "json"])`. -/
def Trainctl.buildCmd (binary output_format : String) (args : List String) : List String :=
  binary :: args ++ (if output_format = "json" then ["--output", "json"] else [])

/-- `Trainctl._run` (lines 62-114).  `jsonParse` stands for the external
`json.loads`, returning `Option.none` exactly when it would raise
`JSONDecodeError`.  `spawn` stands for the behaviour of the external child
process.  Note that `subprocess.run(..., check=True)` raises
`CalledProcessError` on a non-zero exit code, so with `check` set the
`if check:` branch at lines 86-90 is unreachable and the message comes from
the `except subprocess.CalledProcessError` handler at lines 110-114. -/
def Trainctl.run (binary output_format : String) (jsonParse : String → Option PyDict)
    (args : List String) (check : Bool) (spawn : SpawnResult) : Except String PyDict :=
  let cmd := Trainctl.buildCmd binary output_format args
  match spawn with
  | SpawnResult.fileNotFound =>
      Except.error ("trainctl binary not found: " ++ binary ++
        "\nInstall with: cargo install --path .")
  | SpawnResult.ran r =>
      if check ∧ r.returncode ≠ 0 then
        Except.error ("trainctl command failed: " ++ r.stderr ++ "\nCommand: " ++
          String.intercalate " " cmd)
      else if r.returncode ≠ 0 then
        Except.ok [("error", PyVal.str r.stderr), ("exit_code", PyVal.int r.returncode)]
      else if pyStripEmpty r.stdout then
        Except.ok []
      else if output_format = "json" then
        match jsonParse r.stdout with
        | some d => Except.ok d
        | Option.none => Except.ok [("output", PyVal.str r.stdout)]
      else
        Except.ok [("output", PyVal.str r.stdout)]

/-- `Trainctl.version` (lines 116-118): `self._run(["--version"], check=False)`. -/
def Trainctl.version (binary output_format : String) (jsonParse : String → Option PyDict)
    (spawn : SpawnResult) : Except String PyDict :=
  Trainctl.run binary output_format jsonParse ["--version"] false spawn

/-- Binary resolution in `Trainctl.__init__` (lines 39-56).  `whichFound`
models `shutil.which("trainctl")` succeeding; `root` models
`Path(__file__).parent.parent` rendered as a string; `releaseExists` and
`debugExists` model the two `target_bin.exists()` probes.  The resolved value
is stored once in `self.binary` at construction. -/
def resolveBinary (explicit : Option String) (whichFound : Bool) (root : String)
    (releaseExists debugExists : Bool) : String :=
  match explicit with
  | some b => b
  | Option.none =>
      if whichFound then "trainctl"
      else if releaseExists then root ++ "/target/release/trainctl"
      else if debugExists then root ++ "/target/debug/trainctl"
      else "trainctl"

/-- `AWSCommands.create_instance` (lines 127-158): pure argument construction.
Optional parameters follow Python truthiness: `if spot_max_price:` is false
for `None` and for `0`, `if ami_id:` is false for `None` and `""`. -/
def AWSCommands.create_instance (instance_type : String) (spot : Bool)
    (spot_max_price : Option ℚ) (ami_id : Option String)
    (project_name : Option String) : List String :=
  let args := ["aws", "create", "--instance-type", instance_type]
  let args := if spot then args ++ ["--spot"] else args
  let args := match spot_max_price with
    | some p => if p ≠ 0 then args ++ ["--spot-max-price", toString p] else args
    | Option.none => args
  let args := match ami_id with
    | some a => if a ≠ "" then args ++ ["--ami-id", a] else args
    | Option.none => args
  let args := match project_name with
    | some p => if p ≠ "" then args ++ ["--project-name", p] else args
    | Option.none => args
  args

/-- `AWSCommands.train` (lines 160-193).  The pass-through `args` list is
appended after a `--` separator only when truthy (non-`None` and non-empty). -/
def AWSCommands.train (instance_id script : String) (data_s3 : Option String)
    (sync_code : Bool) (project_name : Option String)
    (args : Option (List String)) : List String :=
  let cmd_args := ["aws", "train", instance_id, script]
  let cmd_args := match data_s3 with
    | some d => if d ≠ "" then cmd_args ++ ["--data-s3", d] else cmd_args
    | Option.none => cmd_args
  let cmd_args := if sync_code then cmd_args ++ ["--sync-code"] else cmd_args
  let cmd_args := match project_name with
    | some p => if p ≠ "" then cmd_args ++ ["--project-name", p] else cmd_args
    | Option.none => cmd_args
  let cmd_args := match args with
    | some a => if a ≠ [] then cmd_args ++ ("--" :: a) else cmd_args
    | Option.none => cmd_args
  cmd_args

/-- `AWSCommands.stop` (lines 195-200). -/
def AWSCommands.stop (instance_id : String) (force : Bool) : List String :=
  let args := ["aws", "stop", instance_id]
  if force then args ++ ["--force"] else args

/-- `AWSCommands.terminate` (lines 202-207). -/
def AWSCommands.terminate (instance_id : String) (force : Bool) : List String :=
  let args := ["aws", "terminate", instance_id]
  if force then args ++ ["--force"] else args

/-- `AWSCommands.monitor` (lines 209-214). -/
def AWSCommands.monitor (instance_id : String) (follow : Bool) : List String :=
  let args := ["aws", "monitor", instance_id]
  if follow then args ++ ["--follow"] else args

/-- `AWSCommands.processes` (lines 216-221). -/
def AWSCommands.processes (instance_id : String) (watch : Bool) : List String :=
  let args := ["aws", "processes", instance_id]
  if watch then args ++ ["--watch"] else args

/-- `ResourceCommands.list` (lines 230-255).  `if limit:` is false for
`None` and for `0`; `str(limit)` renders the integer. -/
def ResourceCommands.list (platform : Option String) (detailed : Bool)
    (limit : Option Int) : List String :=
  let args := ["resources", "list"]
  let args := match platform with
    | some p => if p ≠ "" then args ++ ["--platform", p] else args
    | Option.none => args
  let args := if detailed then args ++ ["--detailed"] else args
  let args := match limit with
    | some n => if n ≠ 0 then args ++ ["--limit", toString n] else args
    | Option.none => args
  args

/-- `ResourceCommands.summary` (lines 257-259). -/
def ResourceCommands.summary : List String :=
  ["resources", "summary"]

/-- `ResourceCommands.stop_all` (lines 261-266). -/
def ResourceCommands.stop_all (force : Bool) : List String :=
  let args := ["resources", "stop-all"]
  if force then args ++ ["--force"] else args

/-- `CheckpointCommands.list` (lines 275-277). -/
def CheckpointCommands.list (directory : String) : List String :=
  ["checkpoint", "list", directory]

/-- `CheckpointCommands.info` (lines 279-281). -/
def CheckpointCommands.info (path : String) : List String :=
  ["checkpoint", "info", path]

/-- Stand-in for the external `json.loads` used to instantiate witnesses: it
accepts only the empty JSON object and rejects everything else.  Bare text
such as `hello`, or whitespace alone, is not valid JSON, so `json.loads`
raises there, which this stand-in renders as `Option.none`.  The claim
theorems quantify over the parse function, so nothing depends on the details
of this instance. -/
def jsonLoadsModel (s : String) : Option PyDict :=
  if s = "{}" then some [] else Option.none

/-- A parse function that accepts every input, used to witness that raw-text
mode never consults the parser at all. -/
def jsonAcceptAll : String → Option PyDict :=
  fun s => some [("parsed", PyVal.str s)]

/-- Claim C1 (amended): for every invocation with output format `json`, exit
code 0, and stdout that is non-empty after stripping whitespace and fails to
parse as JSON, `_run` returns the single-field dict `{"output": <raw stdout>}`
and does not raise; in particular stdout `hello` decodes to
`{"output": "hello"}`. -/
theorem C1_json_parse_fallback (binary : String) (jsonParse : String → Option PyDict)
    (args : List String) (check : Bool) (stdout stderr : String)
    (hns : pyStripEmpty stdout = false) (hp : jsonParse stdout = Option.none) :
    Trainctl.run binary "json" jsonParse args check
      (SpawnResult.ran ⟨0, stdout, stderr⟩) =
      Except.ok [("output", PyVal.str stdout)] := by
  simp [Trainctl.run, hns, hp]

/-- Witness for C1: stdout `hello` with structured format requested decodes to
`{"output": "hello"}`. -/
theorem C1_json_parse_fallback_witness :
    pyStripEmpty "hello" = false ∧ jsonLoadsModel "hello" = Option.none ∧
    Trainctl.run "trainctl" "json" jsonLoadsModel ["--version"] true
      (SpawnResult.ran ⟨0, "hello", ""⟩) =
      Except.ok [("output", PyVal.str "hello")] :=
  ⟨by decide, by decide,
    C1_json_parse_fallback "trainctl" jsonLoadsModel ["--version"] true "hello" ""
      (by decide) (by decide)⟩

/-- Counterexample to C1 as stated: stdout consisting of one space is
non-empty and fails to parse as JSON, yet `_run` returns the empty dict `{}`
(the `strip()` emptiness check at line 93 fires first), not
`{"output": " "}`. -/
theorem C1_counterexample :
    (" " : String) ≠ "" ∧ jsonLoadsModel " " = Option.none ∧
    Trainctl.run "trainctl" "json" jsonLoadsModel [] true
      (SpawnResult.ran ⟨0, " ", ""⟩) = Except.ok [] ∧
    Trainctl.run "trainctl" "json" jsonLoadsModel [] true
      (SpawnResult.ran ⟨0, " ", ""⟩) ≠
      Except.ok [("output", PyVal.str " ")] := by
  refine ⟨by decide, by decide, ?_, ?_⟩ <;> decide

/-- Claim C2: with `check_exit=true` and a non-zero exit code, `_run` raises a
`TrainctlError` whose message contains the captured stderr text and the full
command line used (here stated as the exact message produced by the
`CalledProcessError` handler, which embeds both). -/
theorem C2_nonzero_exit_raises (binary output_format : String)
    (jsonParse : String → Option PyDict) (args : List String) (r : SpawnOutcome)
    (h : r.returncode ≠ 0) :
    Trainctl.run binary output_format jsonParse args true (SpawnResult.ran r) =
      Except.error ("trainctl command failed: " ++ r.stderr ++ "\nCommand: " ++
        String.intercalate " " (Trainctl.buildCmd binary output_format args)) := by
  simp [Trainctl.run, h]

/-- Witness for C2: exit code 1 with stderr `quota exceeded` raises with a
message containing `quota exceeded` and the command line
`trainctl resources list --output json`. -/
theorem C2_nonzero_exit_raises_witness :
    (1 : Int) ≠ 0 ∧
    Trainctl.run "trainctl" "json" jsonLoadsModel ["resources", "list"] true
      (SpawnResult.ran ⟨1, "", "quota exceeded"⟩) =
      Except.error ("trainctl command failed: " ++ "quota exceeded" ++
        "\nCommand: " ++ "trainctl resources list --output json") :=
  ⟨by decide, by
    have h := C2_nonzero_exit_raises "trainctl" "json" jsonLoadsModel
      ["resources", "list"] ⟨1, "", "quota exceeded"⟩ (by decide)
    rw [h]
    decide⟩

/-- Claim C3: with `check_exit=false` and a non-zero exit code, `_run` does
not raise; it returns `{"error": <stderr>, "exit_code": <code>}`. -/
theorem C3_nonzero_exit_no_raise (binary output_format : String)
    (jsonParse : String → Option PyDict) (args : List String) (r : SpawnOutcome)
    (h : r.returncode ≠ 0) :
    Trainctl.run binary output_format jsonParse args false (SpawnResult.ran r) =
      Except.ok [("error", PyVal.str r.stderr), ("exit_code", PyVal.int r.returncode)] := by
  simp [Trainctl.run, h]

/-- Witness for C3: exit code 2 with stderr `boom` and `check=false` returns
the error-describing dict. -/
theorem C3_nonzero_exit_no_raise_witness :
    (2 : Int) ≠ 0 ∧
    Trainctl.run "trainctl" "json" jsonLoadsModel ["aws", "stop", "i-1"] false
      (SpawnResult.ran ⟨2, "", "boom"⟩) =
      Except.ok [("error", PyVal.str "boom"), ("exit_code", PyVal.int 2)] :=
  ⟨by decide,
    C3_nonzero_exit_no_raise "trainctl" "json" jsonLoadsModel ["aws", "stop", "i-1"]
      ⟨2, "", "boom"⟩ (by decide)⟩

/-- Claim C4: exit code 0 with empty or whitespace-only stdout returns the
empty dict `{}` regardless of the requested output format; this is a result,
not an error. -/
theorem C4_empty_stdout_empty_result (binary output_format : String)
    (jsonParse : String → Option PyDict) (args : List String) (check : Bool)
    (stdout stderr : String) (h : pyStripEmpty stdout = true) :
    Trainctl.run binary output_format jsonParse args check
      (SpawnResult.ran ⟨0, stdout, stderr⟩) = Except.ok [] := by
  simp [Trainctl.run, h]

/-- Witness for C4: whitespace-only stdout gives `{}` both for the `json`
format and for a raw-text format, including stdout made only of the
file-separator and no-break-space characters, which Python strips too. -/
theorem C4_empty_stdout_empty_result_witness :
    pyStripEmpty " \n\t" = true ∧ pyStripEmpty "\x1c\xa0" = true ∧
    Trainctl.run "trainctl" "json" jsonLoadsModel ["resources", "summary"] true
      (SpawnResult.ran ⟨0, " \n\t", ""⟩) = Except.ok [] ∧
    Trainctl.run "trainctl" "json" jsonLoadsModel ["resources", "summary"] true
      (SpawnResult.ran ⟨0, "\x1c\xa0", ""⟩) = Except.ok [] ∧
    Trainctl.run "trainctl" "text" jsonLoadsModel ["resources", "summary"] true
      (SpawnResult.ran ⟨0, "", ""⟩) = Except.ok [] :=
  ⟨by decide, by decide,
    C4_empty_stdout_empty_result "trainctl" "json" jsonLoadsModel
      ["resources", "summary"] true " \n\t" "" (by decide),
    C4_empty_stdout_empty_result "trainctl" "json" jsonLoadsModel
      ["resources", "summary"] true "\x1c\xa0" "" (by decide),
    C4_empty_stdout_empty_result "trainctl" "text" jsonLoadsModel
      ["resources", "summary"] true "" "" (by decide)⟩

/-- Claim C5: `resources.list(platform="aws", limit=5)` builds exactly
`["resources", "list", "--platform", "aws", "--limit", "5"]` in that order,
and the invoker appends `["--output", "json"]` at the end when the `json`
format is configured. -/
theorem C5_resources_list_command :
    ResourceCommands.list (some "aws") false (some 5) =
      ["resources", "list", "--platform", "aws", "--limit", "5"] ∧
    ∀ binary : String,
      Trainctl.buildCmd binary "json" (ResourceCommands.list (some "aws") false (some 5)) =
        binary :: (["resources", "list", "--platform", "aws", "--limit", "5"] ++
          ["--output", "json"]) := by
  have h1 : ResourceCommands.list (some "aws") false (some 5) =
      ["resources", "list", "--platform", "aws", "--limit", "5"] := by decide
  exact ⟨h1, fun b => by rw [h1]; simp [Trainctl.buildCmd]⟩

/-- Claim C7: binary resolution order at facade construction.  An explicit
path is used verbatim with no existence check; otherwise the search tries, in
order, the name on the standard search path, the release-build artifact, the
debug-build artifact, and finally the bare executable name. -/
theorem C7_binary_resolution (b root : String) (whichFound releaseExists debugExists : Bool) :
    resolveBinary (some b) whichFound root releaseExists debugExists = b ∧
    resolveBinary Option.none true root releaseExists debugExists = "trainctl" ∧
    resolveBinary Option.none false root true debugExists =
      root ++ "/target/release/trainctl" ∧
    resolveBinary Option.none false root false true =
      root ++ "/target/debug/trainctl" ∧
    resolveBinary Option.none false root false false = "trainctl" :=
  ⟨rfl, rfl, rfl, rfl, rfl⟩

/-- Claim C10: a missing binary raises even with `check=false`.  When spawning
raises `FileNotFoundError`, `_run` raises a `TrainctlError` carrying the
attempted binary path and a remediation hint, for every `check` value and
also through the `version()` accessor (which uses `check=False`). -/
theorem C10_binary_not_found_raises (binary output_format : String)
    (jsonParse : String → Option PyDict) (args : List String) (check : Bool) :
    Trainctl.run binary output_format jsonParse args check SpawnResult.fileNotFound =
      Except.error ("trainctl binary not found: " ++ binary ++
        "\nInstall with: cargo install --path .") ∧
    Trainctl.version binary output_format jsonParse SpawnResult.fileNotFound =
      Except.error ("trainctl binary not found: " ++ binary ++
        "\nInstall with: cargo install --path .") :=
  ⟨rfl, rfl⟩

/-- Claim C6: for every command builder and every optional parameter left at
its default, the constructed argument list does not contain that parameter
flag token.  The required positional parameters are assumed not to collide
textually with the flag tokens. -/
theorem C6_unset_optionals_omit_flags (it iid script : String)
    (h1 : "--spot" ≠ it) (h2 : "--spot-max-price" ≠ it) (h3 : "--ami-id" ≠ it)
    (h4 : "--project-name" ≠ it)
    (h5 : "--data-s3" ≠ iid) (h6 : "--data-s3" ≠ script)
    (h7 : "--sync-code" ≠ iid) (h8 : "--sync-code" ≠ script)
    (h9 : "--project-name" ≠ iid) (h10 : "--project-name" ≠ script)
    (h11 : "--" ≠ iid) (h12 : "--" ≠ script)
    (h13 : "--force" ≠ iid) (h14 : "--follow" ≠ iid) (h15 : "--watch" ≠ iid) :
    "--spot" ∉ AWSCommands.create_instance it false Option.none Option.none Option.none ∧
    "--spot-max-price" ∉
      AWSCommands.create_instance it false Option.none Option.none Option.none ∧
    "--ami-id" ∉ AWSCommands.create_instance it false Option.none Option.none Option.none ∧
    "--project-name" ∉
      AWSCommands.create_instance it false Option.none Option.none Option.none ∧
    "--data-s3" ∉ AWSCommands.train iid script Option.none false Option.none Option.none ∧
    "--sync-code" ∉ AWSCommands.train iid script Option.none false Option.none Option.none ∧
    "--project-name" ∉
      AWSCommands.train iid script Option.none false Option.none Option.none ∧
    "--" ∉ AWSCommands.train iid script Option.none false Option.none Option.none ∧
    "--force" ∉ AWSCommands.stop iid false ∧
    "--force" ∉ AWSCommands.terminate iid false ∧
    "--follow" ∉ AWSCommands.monitor iid false ∧
    "--watch" ∉ AWSCommands.processes iid false ∧
    "--platform" ∉ ResourceCommands.list Option.none false Option.none ∧
    "--detailed" ∉ ResourceCommands.list Option.none false Option.none ∧
    "--limit" ∉ ResourceCommands.list Option.none false Option.none ∧
    "--force" ∉ ResourceCommands.stop_all false := by
  refine ⟨?_, ?_, ?_, ?_, ?_, ?_, ?_, ?_, ?_, ?_, ?_, ?_, ?_, ?_, ?_, ?_⟩ <;>
    simp [AWSCommands.create_instance, AWSCommands.train, AWSCommands.stop,
      AWSCommands.terminate, AWSCommands.monitor, AWSCommands.processes,
      ResourceCommands.list, ResourceCommands.stop_all,
      h1, h2, h3, h4, h5, h6, h7, h8, h9, h10, h11, h12, h13, h14, h15]

/-- Witness for C6 at concrete required parameters. -/
theorem C6_unset_optionals_omit_flags_witness :
    "--spot" ∉
      AWSCommands.create_instance "g4dn.xlarge" false Option.none Option.none Option.none ∧
    "--spot-max-price" ∉
      AWSCommands.create_instance "g4dn.xlarge" false Option.none Option.none Option.none ∧
    "--ami-id" ∉
      AWSCommands.create_instance "g4dn.xlarge" false Option.none Option.none Option.none ∧
    "--project-name" ∉
      AWSCommands.create_instance "g4dn.xlarge" false Option.none Option.none Option.none ∧
    "--data-s3" ∉
      AWSCommands.train "i-123" "train.py" Option.none false Option.none Option.none ∧
    "--sync-code" ∉
      AWSCommands.train "i-123" "train.py" Option.none false Option.none Option.none ∧
    "--project-name" ∉
      AWSCommands.train "i-123" "train.py" Option.none false Option.none Option.none ∧
    "--" ∉ AWSCommands.train "i-123" "train.py" Option.none false Option.none Option.none ∧
    "--force" ∉ AWSCommands.stop "i-123" false ∧
    "--force" ∉ AWSCommands.terminate "i-123" false ∧
    "--follow" ∉ AWSCommands.monitor "i-123" false ∧
    "--watch" ∉ AWSCommands.processes "i-123" false ∧
    "--platform" ∉ ResourceCommands.list Option.none false Option.none ∧
    "--detailed" ∉ ResourceCommands.list Option.none false Option.none ∧
    "--limit" ∉ ResourceCommands.list Option.none false Option.none ∧
    "--force" ∉ ResourceCommands.stop_all false :=
  C6_unset_optionals_omit_flags "g4dn.xlarge" "i-123" "train.py"
    (by decide) (by decide) (by decide) (by decide) (by decide) (by decide)
    (by decide) (by decide) (by decide) (by decide) (by decide) (by decide)
    (by decide) (by decide) (by decide)

/-- Claim C8: optional parameters that are provided but falsy are treated
exactly as if unset, because the builders test optionals by Python
truthiness: `list(limit=0)` omits `--limit`, `create_instance` with
`spot_max_price=0.0` omits `--spot-max-price`, and `train(args=[])` omits the
`--` separator. -/
theorem C8_falsy_optionals_omitted (it iid script : String)
    (h1 : "--spot-max-price" ≠ it) (h2 : "--" ≠ iid) (h3 : "--" ≠ script) :
    ResourceCommands.list Option.none false (some 0) =
      ResourceCommands.list Option.none false Option.none ∧
    "--limit" ∉ ResourceCommands.list Option.none false (some 0) ∧
    AWSCommands.create_instance it false (some 0) Option.none Option.none =
      AWSCommands.create_instance it false Option.none Option.none Option.none ∧
    "--spot-max-price" ∉
      AWSCommands.create_instance it false (some 0) Option.none Option.none ∧
    AWSCommands.train iid script Option.none false Option.none (some []) =
      AWSCommands.train iid script Option.none false Option.none Option.none ∧
    "--" ∉ AWSCommands.train iid script Option.none false Option.none (some []) := by
  refine ⟨by decide, by decide, ?_, ?_, ?_, ?_⟩ <;>
    simp [AWSCommands.create_instance, AWSCommands.train, ResourceCommands.list,
      h1, h2, h3]

/-- Witness for C8 at concrete required parameters. -/
theorem C8_falsy_optionals_omitted_witness :
    ResourceCommands.list Option.none false (some 0) =
      ResourceCommands.list Option.none false Option.none ∧
    "--limit" ∉ ResourceCommands.list Option.none false (some 0) ∧
    AWSCommands.create_instance "g4dn.xlarge" false (some 0) Option.none Option.none =
      AWSCommands.create_instance "g4dn.xlarge" false Option.none Option.none Option.none ∧
    "--spot-max-price" ∉
      AWSCommands.create_instance "g4dn.xlarge" false (some 0) Option.none Option.none ∧
    AWSCommands.train "i-123" "train.py" Option.none false Option.none (some []) =
      AWSCommands.train "i-123" "train.py" Option.none false Option.none Option.none ∧
    "--" ∉ AWSCommands.train "i-123" "train.py" Option.none false Option.none (some []) :=
  C8_falsy_optionals_omitted "g4dn.xlarge" "i-123" "train.py"
    (by decide) (by decide) (by decide)

/-- Claim C9 (amended): any output format other than exactly `json` is
raw-text: the `["--output", "json"]` pair is never appended to the command,
and a zero-exit invocation with stdout that is non-empty after stripping
whitespace always yields `{"output": <stdout>}` with no structured parsing
attempted (the result does not depend on the parse function). -/
theorem C9_non_json_format_raw (output_format : String) (hfmt : output_format ≠ "json")
    (binary : String) (jsonParse : String → Option PyDict) (args : List String)
    (check : Bool) (stdout stderr : String) (hns : pyStripEmpty stdout = false) :
    Trainctl.buildCmd binary output_format args = binary :: args ∧
    Trainctl.run binary output_format jsonParse args check
      (SpawnResult.ran ⟨0, stdout, stderr⟩) =
      Except.ok [("output", PyVal.str stdout)] := by
  constructor
  · simp [Trainctl.buildCmd, hfmt]
  · simp [Trainctl.run, hfmt, hns]

/-- Witness for C9: format `text` with a parse function that would accept
everything still yields the raw-text wrapper and a flagless command line. -/
theorem C9_non_json_format_raw_witness :
    ("text" : String) ≠ "json" ∧ pyStripEmpty "hello" = false ∧
    Trainctl.buildCmd "trainctl" "text" ["--version"] = "trainctl" :: ["--version"] ∧
    Trainctl.run "trainctl" "text" jsonAcceptAll ["--version"] true
      (SpawnResult.ran ⟨0, "hello", ""⟩) = Except.ok [("output", PyVal.str "hello")] :=
  ⟨by decide, by decide,
    (C9_non_json_format_raw "text" (by decide) "trainctl" jsonAcceptAll ["--version"]
      true "hello" "" (by decide)).1,
    (C9_non_json_format_raw "text" (by decide) "trainctl" jsonAcceptAll ["--version"]
      true "hello" "" (by decide)).2⟩

/-- Counterexample to C9 as stated: under the raw-text format, stdout of one
space is non-empty yet the program returns the empty dict, not
`{"output": " "}`, because the `strip()` emptiness gate at line 93 fires
before the raw-text wrapping at line 103. -/
theorem C9_counterexample :
    (" " : String) ≠ "" ∧ ("text" : String) ≠ "json" ∧
    Trainctl.run "trainctl" "text" jsonAcceptAll [] true
      (SpawnResult.ran ⟨0, " ", ""⟩) = Except.ok [] ∧
    Trainctl.run "trainctl" "text" jsonAcceptAll [] true
      (SpawnResult.ran ⟨0, " ", ""⟩) ≠
      Except.ok [("output", PyVal.str " ")] := by
  refine ⟨by decide, by decide, ?_, ?_⟩ <;> decide
